import Mathlib

/-!
# SMS server alerts guide: status simulation handler and log fan-out

A shallow embedding of `main.go`: the `/simulate/` HTTP handler, the three
`WriterHook`s registered in `main`, and the `MBContainer` writer that forwards
log lines as SMS bodies.

Go strings and byte slices are lists of bytes; a byte is a natural number.
The library routines the program calls (`strings.Split`, `strconv.Atoi`,
`fmt.Fprintln`, the response writer of the `net/http` server and the hook
dispatch of logrus) are embedded next to the code that calls them; what the program cannot
observe from its own text (reason phrases, quoting, the formatter's rendering,
failures of the sinks, the treatment of 1xx codes by the server) is collected
in `Env`.
-/

namespace ServerAlerts

/-- Go `string` / `[]byte`: a sequence of bytes. -/
abbrev GoString := List Nat

/-- Bytes of an ASCII literal of the source text. -/
def ascii (s : String) : GoString := s.toList.map Char.toNat

/-! ## Library: `strings.Split` with a one-byte separator -/

/-- Go `strings.Split(s, sep)` at a one-byte separator, the form used by the
handler (`strings.Split(r.URL.Path, "/")`): the pieces between consecutive
separators, one more piece than there are separators. -/
def Split : GoString → Nat → List GoString
  | [], _ => [[]]
  | c :: s, sep =>
    if c = sep then [] :: Split s sep
    else
      match Split s sep with
      | [] => [[c]]
      | piece :: rest => (c :: piece) :: rest

/-! ## Library: `strconv.Atoi` (64-bit `int`) -/

/-- Go `strconv.ErrSyntax` and `strconv.ErrRange`. -/
inductive NumErr
  | ErrSyntax
  | ErrRange
  deriving DecidableEq, Repr

/-- Go `strconv.NumError`. -/
structure NumError where
  Func : GoString
  Num : GoString
  Err : NumErr
  deriving DecidableEq, Repr

/-- Digit loop of the fast path of `strconv.Atoi`: `ch -= '0'; if ch > 9` fails,
otherwise `n = n*10 + int(ch)`. -/
def atoiDigits : GoString → Int → Option Int
  | [], n => some n
  | ch :: s, n =>
    if 48 ≤ ch ∧ ch ≤ 57 then atoiDigits s (n * 10 + ((ch - 48 : Nat) : Int)) else none

/-- Digit loop of `strconv.ParseUint(s, 10, 64)`: the value, or the error kind
at the first byte where the scan stops. -/
def parseUintDigits : GoString → Nat → Except NumErr Nat
  | [], n => .ok n
  | c :: s, n =>
    if ¬ (48 ≤ c ∧ c ≤ 57) then .error .ErrSyntax
    else if n ≥ (2 ^ 64 - 1) / 10 + 1 then .error .ErrRange
    else if n * 10 + (c - 48) > 2 ^ 64 - 1 then .error .ErrRange
    else parseUintDigits s (n * 10 + (c - 48))

/-- Go `strconv.ParseUint(s, 10, 64)`: value and error kind. -/
def ParseUint (s : GoString) : Nat × Option NumErr :=
  match s with
  | [] => (0, some .ErrSyntax)
  | _ =>
    match parseUintDigits s 0 with
    | .ok n => (n, none)
    | .error .ErrSyntax => (0, some .ErrSyntax)
    | .error .ErrRange => (2 ^ 64 - 1, some .ErrRange)

/-- Go `strconv.ParseInt(s, 10, 0)` on a 64-bit platform: value and error kind. -/
def ParseInt (s : GoString) : Int × Option NumErr :=
  match s with
  | [] => (0, some .ErrSyntax)
  | c :: t =>
    let neg := decide (c = 45)
    let body := if c = 43 ∨ c = 45 then t else s
    match ParseUint body with
    | (_, some .ErrSyntax) => (0, some .ErrSyntax)
    | (un, _) =>
      if ¬ neg ∧ un ≥ 2 ^ 63 then (2 ^ 63 - 1, some .ErrRange)
      else if neg ∧ un > 2 ^ 63 then (-(2 ^ 63), some .ErrRange)
      else (if neg then -(un : Int) else (un : Int), none)

/-- Go `strconv.Atoi(s)` on a 64-bit platform: the parsed value together with
the error, if any. On a syntax error the value is 0. -/
def Atoi (s : GoString) : Int × Option NumError :=
  if 0 < s.length ∧ s.length < 19 then
    match s with
    | [] => (0, some ⟨ascii "Atoi", s, .ErrSyntax⟩)
    | c :: t =>
      let digits := if c = 45 ∨ c = 43 then t else s
      if digits.length < 1 then (0, some ⟨ascii "Atoi", s, .ErrSyntax⟩)
      else
        match atoiDigits digits 0 with
        | none => (0, some ⟨ascii "Atoi", s, .ErrSyntax⟩)
        | some n => (if c = 45 then -n else n, none)
  else
    match ParseInt s with
    | (i64, some e) => (i64, some ⟨ascii "Atoi", s, e⟩)
    | (i64, none) => (i64, none)

/-- Go `%d` of an `int`: decimal digits, with a leading minus sign when negative. -/
def formatInt (n : Int) : GoString :=
  if n < 0 then 45 :: (Nat.toDigits 10 n.natAbs).map Char.toNat
  else (Nat.toDigits 10 n.natAbs).map Char.toNat

/-! ## Log levels and entries (logrus) -/

/-- The logrus `Level`s, in the order of their numeric values 0..6. -/
inductive Level
  | PanicLevel
  | FatalLevel
  | ErrorLevel
  | WarnLevel
  | InfoLevel
  | DebugLevel
  | TraceLevel
  deriving DecidableEq, Repr

/-- Numeric value of a logrus `Level`. -/
def Level.toNat : Level → Nat
  | .PanicLevel => 0
  | .FatalLevel => 1
  | .ErrorLevel => 2
  | .WarnLevel => 3
  | .InfoLevel => 4
  | .DebugLevel => 5
  | .TraceLevel => 6

/-- A log event: its level and its message text. -/
structure Entry where
  Level : Level
  Message : GoString
  deriving DecidableEq, Repr

/-- The level list `logLevelsInfo` of `main.go`. -/
def logLevelsInfo : List Level := [.InfoLevel, .WarnLevel]

/-- The level list `logLevelsSevere` of `main.go`. -/
def logLevelsSevere : List Level := [.ErrorLevel, .PanicLevel, .FatalLevel]

/-- The level list `logLevelsAll` of `main.go`. -/
def logLevelsAll : List Level :=
  [.InfoLevel, .WarnLevel, .ErrorLevel, .PanicLevel, .FatalLevel]

/-! ## Sinks and the environment -/

/-- `MBContainer` of `main.go` (the client handle carries no data the program reads). -/
structure MBContainer where
  Originator : GoString
  Recipients : List GoString
  deriving DecidableEq, Repr

/-- The `io.Writer`s that `main` puts into hooks. -/
inductive Writer
  | Stdout
  | Logfile
  | MB (mb : MBContainer)
  deriving DecidableEq, Repr

/-- One call that leaves the program: a write on standard output, on the log
file or on standard error, an `sms.Create` call with its message body, or the
`Message sent` line printed after a successful send. -/
inductive Output
  | stdout (p : GoString)
  | logfile (p : GoString)
  | smsCreate (originator : GoString) (recipients : List GoString) (body : GoString)
  | messageSent
  | stderr (p : GoString)
  deriving DecidableEq, Repr

/-- What the program text does not fix: the reason phrases of
`http.StatusText`, `strconv.Quote`, the rendering of an entry by the formatter
(`entry.String()`, which may fail), which sink calls fail with which error, and
whether the `net/http` server sends the 1xx codes other than 101 as
informational responses (Go 1.19 and later) or writes them as the final status. -/
structure Env where
  StatusText : Int → GoString
  Quote : GoString → GoString
  Format : Entry → Except GoString GoString
  sinkErr : Output → Option GoString
  informational : Bool

/-- Go `(*NumError).Error()`. -/
def NumError.Error (env : Env) (e : NumError) : GoString :=
  ascii "strconv." ++ e.Func ++ ascii ": parsing " ++ env.Quote e.Num ++ ascii ": " ++
    (match e.Err with
     | .ErrSyntax => ascii "invalid syntax"
     | .ErrRange => ascii "value out of range")

/-! ## `MBContainer.Write`, `WriterHook` -/

/-- The message body of `MBContainer.Write` (lines 155-158): the payload,
cut to its first 159 bytes when it is longer than 160 bytes. -/
def MBContainer.msgBody (p : GoString) : GoString :=
  if p.length > 160 then p.take 159 else p

/-- `MBContainer.Write`: the calls made, the returned count and the returned error. -/
def MBContainer.Write (env : Env) (mb : MBContainer) (p : GoString) :
    List Output × Nat × Option GoString :=
  let call := Output.smsCreate mb.Originator mb.Recipients (MBContainer.msgBody p)
  match env.sinkErr call with
  | some err => ([call], 1, some err)
  | none => ([call, Output.messageSent], 0, none)

/-- `Write` of the writer held by a hook: `os.Stdout`, the log file, or the
`MBContainer`. -/
def Writer.Write (env : Env) : Writer → GoString → List Output × Nat × Option GoString
  | .Stdout, p =>
    match env.sinkErr (.stdout p) with
    | some err => ([.stdout p], 0, some err)
    | none => ([.stdout p], p.length, none)
  | .Logfile, p =>
    match env.sinkErr (.logfile p) with
    | some err => ([.logfile p], 0, some err)
    | none => ([.logfile p], p.length, none)
  | .MB mb, p => mb.Write env p

/-- `WriterHook` of `main.go`. -/
structure WriterHook where
  Writer : Writer
  LogLevels : List Level
  deriving DecidableEq, Repr

/-- `WriterHook.Levels`. -/
def WriterHook.Levels (hook : WriterHook) : List Level := hook.LogLevels

/-- `WriterHook.Fire`: render the entry, write the line; the calls made and
the returned error. -/
def WriterHook.Fire (env : Env) (hook : WriterHook) (entry : Entry) :
    List Output × Option GoString :=
  match env.Format entry with
  | .error err => ([], some err)
  | .ok line =>
    match hook.Writer.Write env line with
    | (outs, _, some err) => (outs, some err)
    | (outs, _, none) => (outs, none)

/-! ## Library: hook registration and dispatch of logrus -/

/-- The logrus `LevelHooks`: the hooks registered for each level. -/
abbrev LevelHooks := Level → List WriterHook

/-- The logrus `LevelHooks.Add`: append the hook under each of its levels. -/
def LevelHooks.Add (hooks : LevelHooks) (hook : WriterHook) : LevelHooks :=
  hook.Levels.foldl
    (fun hs level => fun l => if l = level then hs l ++ [hook] else hs l) hooks

/-- The loop of logrus `LevelHooks.Fire`: fire the hooks in order and return
at the first error. -/
def fireAll (env : Env) (entry : Entry) : List WriterHook → List Output × Option GoString
  | [] => ([], none)
  | hook :: rest =>
    match hook.Fire env entry with
    | (outs, some err) => (outs, some err)
    | (outs, none) =>
      match fireAll env entry rest with
      | (outs2, err) => (outs ++ outs2, err)

/-- The logrus `LevelHooks.Fire`. -/
def LevelHooks.Fire (env : Env) (hooks : LevelHooks) (level : Level) (entry : Entry) :
    List Output × Option GoString :=
  fireAll env entry (hooks level)

/-- The logger as `main` configures it: hooks and the enabled level. -/
structure Logger where
  Hooks : LevelHooks
  Level : Level

/-- Events emitted so far and calls made on the sinks, in order. -/
structure World where
  entries : List Entry
  out : List Output
  deriving DecidableEq, Repr

/-- A logrus log call below panic level (`log.Error`, `log.Warningln`,
`log.Errorln`, `log.Infoln`), as `Entry.log` runs it when the level is enabled:
the hooks of the level are fired, a hook error is reported on standard error
and not returned; then the entry is rendered for the logger output, a rendering
error is reported on standard error, and the rendered line goes to the
discarded output (`log.SetOutput(ioutil.Discard)`). -/
def Logger.log (env : Env) (logger : Logger) (level : ServerAlerts.Level) (msg : GoString)
    (w : World) : World :=
  if level.toNat ≤ logger.Level.toNat then
    let hookOut :=
      match logger.Hooks.Fire env level ⟨level, msg⟩ with
      | (outs, some err) =>
        outs ++ [Output.stderr (ascii "Failed to fire hook: " ++ err ++ ascii "\n")]
      | (outs, none) => outs
    let writeOut :=
      match env.Format ⟨level, msg⟩ with
      | .error err =>
        [Output.stderr (ascii "Failed to obtain reader, " ++ err ++ ascii "\n")]
      | .ok _ => []
    { entries := w.entries ++ [⟨level, msg⟩], out := w.out ++ hookOut ++ writeOut }
  else w

/-- The `MBContainer` built in `main`. -/
def mainContainer : MBContainer :=
  ⟨ascii "MBServerMon", [ascii "<recipient_number_here>"]⟩

/-- The console hook of `main`. -/
def consoleHook : WriterHook := ⟨.Stdout, logLevelsAll⟩

/-- The file hook of `main`. -/
def fileHook : WriterHook := ⟨.Logfile, logLevelsAll⟩

/-- The alert hook of `main`. -/
def alertHook : WriterHook := ⟨.MB mainContainer, logLevelsSevere⟩

/-- The hooks after the three `log.AddHook` calls of `main`, in that order. -/
def mainHooks : LevelHooks :=
  ((LevelHooks.Add (fun _ => []) consoleHook).Add fileHook).Add alertHook

/-- The standard logger after `main` configured it (default level: info). -/
def mainLogger : Logger := ⟨mainHooks, .InfoLevel⟩

/-! ## The HTTP side -/

/-- The fields of `*http.Request` the handler reads. -/
structure Request where
  Method : GoString
  Path : GoString
  deriving DecidableEq, Repr

/-- Why a handler run ends in a run-time panic: an index out of range, or the
`net/http` response writer rejecting the code passed to `WriteHeader`
(`invalid WriteHeader code`). -/
inductive PanicCause
  | indexOutOfRange
  | invalidWriteHeaderCode (code : Int)
  deriving DecidableEq, Repr

/-- The response writer of the `net/http` server, the writer `main` hands to the
handlers through `http.ListenAndServe`: the status code once the header is
written, and the body bytes the writer accepted so far. -/
structure ResponseWriter where
  header : Option Int
  body : GoString
  deriving DecidableEq, Repr

/-- Library: `WriteHeader(code)` of the `net/http` response writer. A call after
the header is written changes nothing; a code below 100 or above 999 panics
(`checkWriteHeaderCode`); a 1xx code other than 101 is sent as an informational
response and leaves the header unwritten when the server supports that;
otherwise the code becomes the status. -/
def ResponseWriter.WriteHeader (env : Env) (w : ResponseWriter) (code : Int) :
    Except PanicCause ResponseWriter :=
  match w.header with
  | some _ => .ok w
  | none =>
    if code < 100 ∨ code > 999 then .error (.invalidWriteHeaderCode code)
    else if env.informational = true ∧ code ≥ 100 ∧ code ≤ 199 ∧ code ≠ 101 then .ok w
    else .ok { w with header := some code }

/-- Library: `bodyAllowedForStatus` of `net/http`: no body with a 1xx, 204 or
304 status. -/
def bodyAllowedForStatus (status : Int) : Bool :=
  if status ≥ 100 ∧ status ≤ 199 then false
  else if status = 204 then false
  else if status = 304 then false
  else true

/-- Library: `Write(p)` of the `net/http` response writer: a write before any
`WriteHeader` writes the header with status 200 first; the bytes are accepted
only when the status allows a body. -/
def ResponseWriter.Write (w : ResponseWriter) (p : GoString) : ResponseWriter :=
  { header := some (w.header.getD 200),
    body := if bodyAllowedForStatus (w.header.getD 200) then w.body ++ p else w.body }

/-- The status code of the response once the handler returned: 200 when the
handler never wrote a header. -/
def ResponseWriter.status (w : ResponseWriter) : Int := w.header.getD 200

/-- Go `fmt.Fprintln(w, s)` with one string operand (the error of the write is
dropped by the callers). -/
def Fprintln (w : ResponseWriter) (s : GoString) : ResponseWriter :=
  w.Write (s ++ [10])

/-- The help text printed by both handlers. -/
def helpText : GoString :=
  ascii "Hello. " ++
  ascii "Please enter a valid status code in the path to simulate a HTTP server status. " ++
  ascii "E.g. www.example.com/simulate/404"

/-- `defaultPath`. -/
def defaultPath (w : ResponseWriter) : ResponseWriter := Fprintln w helpText

/-- How a handler run ends: it returns, with the response written and the
history of events and sink calls; or it panics, in which case the server
recovers, closes the connection and sends no response, the history up to the
panic remaining. -/
inductive Run
  | returned (w : ResponseWriter) (world : World)
  | panicked (cause : PanicCause) (world : World)
  deriving DecidableEq, Repr

/-- The events and sink calls of a run. -/
def Run.world : Run → World
  | .returned _ world => world
  | .panicked _ world => world

/-- The response and history of a run that returned; `none` for a run that
panicked. -/
def Run.returned? : Run → Option (ResponseWriter × World)
  | .returned w world => some (w, world)
  | .panicked _ _ => none

/-- Lines 60-74 of `simulateHTTPStatus`: write the header, then log and print
the outcome. -/
def simulateRespond (env : Env) (logger : Logger) (r : Request) (simulateCode : Int)
    (st : ResponseWriter × World) : Run :=
  match st.1.WriteHeader env simulateCode with
  | .error cause => .panicked cause st.2
  | .ok w =>
    if simulateCode ≥ 500 ∧ simulateCode < 600 then
      let output := ascii "Server error. [" ++ r.Method ++ ascii " " ++ r.Path ++ ascii "] " ++
        formatInt simulateCode ++ ascii " " ++ env.StatusText simulateCode
      .returned (Fprintln w output) (logger.log env .ErrorLevel output st.2)
    else
      let output := ascii "Everything\x27s ok on our end.[" ++ r.Method ++ ascii " " ++
        r.Path ++ ascii "] " ++ formatInt simulateCode ++ ascii " " ++
        env.StatusText simulateCode
      .returned (Fprintln w output) (logger.log env .InfoLevel output st.2)

/-- Lines 47-74 of `simulateHTTPStatus`, from the path segment `path[2]` on. -/
def simulateSegment (env : Env) (logger : Logger) (r : Request) (seg : GoString)
    (st : ResponseWriter × World) : Run :=
  match Atoi seg with
  | (simulateCode, some err) =>
    simulateRespond env logger r simulateCode
      (st.1, logger.log env .ErrorLevel (err.Error env) st.2)
  | (simulateCode, none) =>
    if seg.length ≠ 3 then
      let output := ascii "Unknown status code used in path: " ++ seg
      .returned (Fprintln (Fprintln st.1 output) helpText)
        (logger.log env .WarnLevel output st.2)
    else simulateRespond env logger r simulateCode st

/-- `simulateHTTPStatus`. -/
def simulateHTTPStatus (env : Env) (logger : Logger) (r : Request)
    (st : ResponseWriter × World) : Run :=
  match (Split r.Path 47).get? 2 with
  | none => .panicked .indexOutOfRange st.2
  | some seg => simulateSegment env logger r seg st

/-- A fresh response and an empty history. -/
def start : ResponseWriter × World := (⟨none, []⟩, ⟨[], []⟩)

/-- Library: the reason phrases of Go `http.StatusText`; the empty string for a
code without one. -/
def StatusText : Int → GoString
  | 100 => ascii "Continue"
  | 101 => ascii "Switching Protocols"
  | 102 => ascii "Processing"
  | 103 => ascii "Early Hints"
  | 200 => ascii "OK"
  | 201 => ascii "Created"
  | 202 => ascii "Accepted"
  | 203 => ascii "Non-Authoritative Information"
  | 204 => ascii "No Content"
  | 205 => ascii "Reset Content"
  | 206 => ascii "Partial Content"
  | 207 => ascii "Multi-Status"
  | 208 => ascii "Already Reported"
  | 226 => ascii "IM Used"
  | 300 => ascii "Multiple Choices"
  | 301 => ascii "Moved Permanently"
  | 302 => ascii "Found"
  | 303 => ascii "See Other"
  | 304 => ascii "Not Modified"
  | 305 => ascii "Use Proxy"
  | 307 => ascii "Temporary Redirect"
  | 308 => ascii "Permanent Redirect"
  | 400 => ascii "Bad Request"
  | 401 => ascii "Unauthorized"
  | 402 => ascii "Payment Required"
  | 403 => ascii "Forbidden"
  | 404 => ascii "Not Found"
  | 405 => ascii "Method Not Allowed"
  | 406 => ascii "Not Acceptable"
  | 407 => ascii "Proxy Authentication Required"
  | 408 => ascii "Request Timeout"
  | 409 => ascii "Conflict"
  | 410 => ascii "Gone"
  | 411 => ascii "Length Required"
  | 412 => ascii "Precondition Failed"
  | 413 => ascii "Request Entity Too Large"
  | 414 => ascii "Request URI Too Long"
  | 415 => ascii "Unsupported Media Type"
  | 416 => ascii "Requested Range Not Satisfiable"
  | 417 => ascii "Expectation Failed"
  | 418 => ascii "I\x27m a teapot"
  | 421 => ascii "Misdirected Request"
  | 422 => ascii "Unprocessable Entity"
  | 423 => ascii "Locked"
  | 424 => ascii "Failed Dependency"
  | 425 => ascii "Too Early"
  | 426 => ascii "Upgrade Required"
  | 428 => ascii "Precondition Required"
  | 429 => ascii "Too Many Requests"
  | 431 => ascii "Request Header Fields Too Large"
  | 451 => ascii "Unavailable For Legal Reasons"
  | 500 => ascii "Internal Server Error"
  | 501 => ascii "Not Implemented"
  | 502 => ascii "Bad Gateway"
  | 503 => ascii "Service Unavailable"
  | 504 => ascii "Gateway Timeout"
  | 505 => ascii "HTTP Version Not Supported"
  | 506 => ascii "Variant Also Negotiates"
  | 507 => ascii "Insufficient Storage"
  | 508 => ascii "Loop Detected"
  | 510 => ascii "Not Extended"
  | 511 => ascii "Network Authentication Required"
  | _ => []

/-- A sample environment: the reason phrases of `StatusText`, no sink fails,
quoting wraps in double quotes, the formatter renders the message followed by
a newline, and 1xx codes are sent as informational responses. -/
def plainEnv : Env :=
  { StatusText := StatusText
    Quote := fun s => 34 :: s ++ [34]
    Format := fun e => .ok (e.Message ++ [10])
    sinkErr := fun _ => none
    informational := true }

/-- A sample environment in which every write on the log file fails (as it
does when `os.OpenFile` failed in `main` and the file handle is nil) and
everything else is as in `plainEnv`. -/
def logfileDown : Env :=
  { plainEnv with
    sinkErr := fun o =>
      match o with
      | .logfile _ => some (ascii "invalid argument")
      | _ => none }

/-- A sample environment in which every write on standard output fails and
everything else is as in `plainEnv`. -/
def stdoutDown : Env :=
  { plainEnv with
    sinkErr := fun o =>
      match o with
      | .stdout _ => some (ascii "file already closed")
      | _ => none }

/-! ## Notions used to state the properties -/

/-- The integer that a string of decimal digits denotes (the reading of
"the integer value of c" used to state the properties of the handler). -/
def decimalValue (c : GoString) : Nat :=
  c.foldl (fun n b => 10 * n + (b - 48)) 0

/-- Every byte is one of the decimal digits `0`..`9`. -/
def isDigits (c : GoString) : Prop := ∀ b ∈ c, 48 ≤ b ∧ b ≤ 57

instance (c : GoString) : Decidable (isDigits c) := by
  unfold isDigits; infer_instance

/-- The message bodies handed to `sms.Create` among a list of calls. -/
def sentBodies : List Output → List GoString
  | [] => []
  | .smsCreate _ _ body :: rest => body :: sentBodies rest
  | _ :: rest => sentBodies rest

/-- The one call on its sink that a destination makes when it is written to
with a rendered line. -/
def sinkCall : Writer → GoString → Output
  | .Stdout, line => .stdout line
  | .Logfile, line => .logfile line
  | .MB mb, line => .smsCreate mb.Originator mb.Recipients (MBContainer.msgBody line)

/-- The calls expected of a destination whose write of a rendered line
succeeds: its sink call, followed for the `MBContainer` by the `Message sent`
line. -/
def writtenTo : Writer → GoString → List Output
  | .MB mb, line => [sinkCall (.MB mb) line, .messageSent]
  | writer, line => [sinkCall writer line]

/-- The calls expected when each hook of a list is written to with success, in
order. -/
def allWrittenTo (line : GoString) : List WriterHook → List Output
  | [] => []
  | hook :: rest => writtenTo hook.Writer line ++ allWrittenTo line rest

/-! ## Lemmas on the library routines -/

theorem ascii_simulate :
    ascii "/simulate/" = [47, 115, 105, 109, 117, 108, 97, 116, 101, 47] := by
  decide

theorem Split_head (s : GoString) (sep : Nat) :
    (Split s sep).head? = some (s.takeWhile (fun c => decide (c ≠ sep))) := by
  induction s with
  | nil => simp [Split]
  | cons c s ih =>
    by_cases h : c = sep
    · simp [Split, h]
    · cases hs : Split s sep with
      | nil => simp [hs] at ih
      | cons piece rest =>
        simp [hs] at ih
        simp [Split, h, hs, ih]

theorem Split_simulate (rest : GoString) :
    Split (ascii "/simulate/" ++ rest) 47 = [] :: ascii "simulate" :: Split rest 47 := by
  have h2 : ascii "simulate" = [115, 105, 109, 117, 108, 97, 116, 101] := by decide
  rw [ascii_simulate, h2]
  cases hs : Split rest 47 with
  | nil => exact absurd (hs ▸ Split_head rest 47) (by simp)
  | cons piece more => simp [Split, hs]

theorem segment_of_path (rest : GoString) :
    (Split (ascii "/simulate/" ++ rest) 47).get? 2 =
      some (rest.takeWhile (fun c => decide (c ≠ 47))) := by
  rw [Split_simulate]
  have h := Split_head rest 47
  cases hs : Split rest 47 with
  | nil => simp [hs] at h
  | cons piece more =>
    rw [hs] at h
    exact h

theorem takeWhile_of_digits (c : GoString) (h : isDigits c) :
    c.takeWhile (fun b => decide (b ≠ 47)) = c := by
  rw [List.takeWhile_eq_self_iff]
  intro b hb
  have := h b hb
  simp only [decide_eq_true_eq]
  omega

theorem Atoi_digits3 (c : GoString) (hlen : c.length = 3) (hd : isDigits c) :
    Atoi c = ((decimalValue c : Int), none) := by
  match c, hlen with
  | [x, y, z], _ =>
    have hx := hd x (by simp)
    have hy := hd y (by simp)
    have hz := hd z (by simp)
    have h1 : ¬ (x = 45 ∨ x = 43) := by omega
    have h2 : x ≠ 45 := by omega
    have h3 : x ≠ 43 := by omega
    simp [Atoi, atoiDigits, decimalValue, h1, h2, h3, hx, hy, hz]
    omega

theorem digitChar_toNat : ∀ d < 10, (Nat.digitChar d).toNat = 48 + d := by
  decide

theorem toDigits_three (n : Nat) (h1 : 100 ≤ n) (h2 : n < 1000) :
    (Nat.toDigits 10 n).map Char.toNat = [48 + n / 100, 48 + n / 10 % 10, 48 + n % 10] := by
  have hf : n + 1 = (n - 2) + 1 + 1 + 1 := by omega
  have e1 : ¬ (n / 10 = 0) := by omega
  have e2 : ¬ (n / 10 / 10 = 0) := by omega
  have e3 : n / 10 / 10 / 10 = 0 := by omega
  have d1 := digitChar_toNat (n % 10) (by omega)
  have d2 := digitChar_toNat (n / 10 % 10) (by omega)
  have e4 : n / 10 / 10 % 10 = n / 100 := by omega
  have d3 := digitChar_toNat (n / 100) (by omega)
  rw [Nat.toDigits, hf]
  simp only [Nat.toDigitsCore, e1, e2, e3, if_true, if_false, List.map, d1, d2, d3, e4]

theorem formatInt_digits3 (c : GoString) (hlen : c.length = 3) (hd : isDigits c)
    (h : 100 ≤ decimalValue c) : formatInt (decimalValue c : Int) = c := by
  match c, hlen with
  | [x, y, z], _ =>
    have hx := hd x (by simp)
    have hy := hd y (by simp)
    have hz := hd z (by simp)
    have hv : decimalValue [x, y, z] = 100 * (x - 48) + 10 * (y - 48) + (z - 48) := by
      simp [decimalValue]; omega
    rw [hv] at h ⊢
    have hn : ¬ (((100 * (x - 48) + 10 * (y - 48) + (z - 48) : Nat) : Int) < 0) := by omega
    rw [formatInt, if_neg hn, Int.natAbs_ofNat, toDigits_three _ h (by omega)]
    congr 1
    · omega
    · congr 1
      · omega
      · congr 1
        omega

theorem takeWhile_segment (rest extra : GoString) :
    (rest.takeWhile (fun c => decide (c ≠ 47)) ++ 47 :: extra).takeWhile
        (fun c => decide (c ≠ 47)) =
      rest.takeWhile (fun c => decide (c ≠ 47)) := by
  induction rest with
  | nil => simp
  | cons c rest ih =>
    by_cases h : c = 47
    · simp [h]
    · simp only [ne_eq, h, not_false_eq_true, decide_True, List.takeWhile_cons_of_pos,
        List.cons_append]
      simpa using ih

theorem sentBodies_write (env : Env) (mb : MBContainer) (p : GoString) :
    sentBodies (mb.Write env p).1 = [MBContainer.msgBody p] := by
  unfold MBContainer.Write
  dsimp only
  cases env.sinkErr (Output.smsCreate mb.Originator mb.Recipients (MBContainer.msgBody p)) <;>
    simp [sentBodies]

theorem decimalValue_lt (c : GoString) (hlen : c.length = 3) (hd : isDigits c) :
    decimalValue c < 1000 := by
  match c, hlen with
  | [x, y, z], _ =>
    have hx := hd x (by simp)
    have hy := hd y (by simp)
    have hz := hd z (by simp)
    simp [decimalValue]
    omega

theorem ParseInt_error_value (s : GoString) (n : Int) (e : NumErr)
    (h : ParseInt s = (n, some e)) : n < 100 ∨ n > 999 := by
  unfold ParseInt at h
  split at h
  · simp at h; omega
  · dsimp only at h
    split at h
    · simp at h; omega
    · split at h
      · simp at h; omega
      · split at h
        · simp at h; omega
        · simp at h

theorem Atoi_error_value (s : GoString) (n : Int) (e : NumError)
    (h : Atoi s = (n, some e)) : n < 100 ∨ n > 999 := by
  unfold Atoi at h
  split at h
  · split at h
    · simp at h; omega
    · rename_i c t _
      dsimp only at h
      generalize (if c = 45 ∨ c = 43 then t else c :: t) = digits at h
      split at h
      · simp at h; omega
      · split at h
        · simp at h; omega
        · simp at h
  · split at h
    · rename_i i64 e2 hp
      simp only [Prod.mk.injEq] at h
      rw [← h.1]
      exact ParseInt_error_value s i64 e2 hp
    · simp at h

theorem Atoi_signed3 (s : GoString) (n : Int) (hlen : s.length = 3)
    (h : Atoi s = (n, none)) (hnd : ¬ isDigits s) : n < 100 := by
  match s, hlen with
  | [x, y, z], _ =>
    by_cases hs : x = 45 ∨ x = 43
    · by_cases hy : 48 ≤ y ∧ y ≤ 57
      · by_cases hz : 48 ≤ z ∧ z ≤ 57
        · simp [Atoi, atoiDigits, hs, hy, hz] at h
          split at h <;> omega
        · simp [Atoi, atoiDigits, hs, hy, hz] at h
      · simp [Atoi, atoiDigits, hs, hy] at h
    · by_cases hx : 48 ≤ x ∧ x ≤ 57
      · by_cases hy : 48 ≤ y ∧ y ≤ 57
        · by_cases hz : 48 ≤ z ∧ z ≤ 57
          · exact absurd (by simp [isDigits, hx, hy, hz]) hnd
          · simp [Atoi, atoiDigits, hs, hx, hy, hz] at h
        · simp [Atoi, atoiDigits, hs, hx, hy] at h
      · simp [Atoi, atoiDigits, hs, hx] at h

theorem log_entries (env : Env) (logger : Logger) (level : Level) (msg : GoString)
    (w : World) (h : level.toNat ≤ logger.Level.toNat) :
    (logger.log env level msg w).entries = w.entries ++ [⟨level, msg⟩] := by
  unfold Logger.log
  rw [if_pos h]

theorem simulate_of_segment (env : Env) (logger : Logger) (m seg : GoString)
    (st : ResponseWriter × World) (hseg : 47 ∉ seg) :
    simulateHTTPStatus env logger ⟨m, ascii "/simulate/" ++ seg⟩ st =
      simulateSegment env logger ⟨m, ascii "/simulate/" ++ seg⟩ seg st := by
  have h : seg.takeWhile (fun c => decide (c ≠ 47)) = seg := by
    rw [List.takeWhile_eq_self_iff]
    intro b hb
    have : b ≠ 47 := fun hc => hseg (hc ▸ hb)
    simpa using this
  simp only [simulateHTTPStatus, segment_of_path, h]

theorem simulate_of_digits (env : Env) (logger : Logger) (m c : GoString)
    (st : ResponseWriter × World) (hlen : c.length = 3) (hd : isDigits c) :
    simulateHTTPStatus env logger ⟨m, ascii "/simulate/" ++ c⟩ st =
      simulateRespond env logger ⟨m, ascii "/simulate/" ++ c⟩ (decimalValue c : Int) st := by
  simp only [simulateHTTPStatus, segment_of_path, takeWhile_of_digits c hd, simulateSegment,
    Atoi_digits3 c hlen hd, hlen, ne_eq, not_true_eq_false, if_false]

theorem respond_rejected (env : Env) (logger : Logger) (r : Request) (code : Int)
    (body : GoString) (world : World) (h : code < 100 ∨ code > 999) :
    simulateRespond env logger r code (⟨none, body⟩, world) =
      Run.panicked (PanicCause.invalidWriteHeaderCode code) world := by
  simp [simulateRespond, ResponseWriter.WriteHeader, h]

theorem fire_written (env : Env) (hook : WriterHook) (entry : Entry) (line : GoString)
    (hf : env.Format entry = .ok line)
    (hs : env.sinkErr (sinkCall hook.Writer line) = none) :
    hook.Fire env entry = (writtenTo hook.Writer line, none) := by
  obtain ⟨writer, levels⟩ := hook
  cases writer <;>
    simp_all [WriterHook.Fire, Writer.Write, MBContainer.Write, sinkCall, writtenTo]

theorem fire_failed (env : Env) (hook : WriterHook) (entry : Entry) (line err : GoString)
    (hf : env.Format entry = .ok line)
    (hs : env.sinkErr (sinkCall hook.Writer line) = some err) :
    hook.Fire env entry = ([sinkCall hook.Writer line], some err) := by
  obtain ⟨writer, levels⟩ := hook
  cases writer <;>
    simp_all [WriterHook.Fire, Writer.Write, MBContainer.Write, sinkCall]

theorem fireAll_stops (env : Env) (entry : Entry) (line err : GoString)
    (pre post : List WriterHook) (h : WriterHook)
    (hf : env.Format entry = .ok line)
    (hpre : ∀ p ∈ pre, env.sinkErr (sinkCall p.Writer line) = none)
    (hfail : env.sinkErr (sinkCall h.Writer line) = some err) :
    fireAll env entry (pre ++ h :: post) =
      (allWrittenTo line pre ++ [sinkCall h.Writer line], some err) := by
  induction pre with
  | nil => simp [fireAll, fire_failed env h entry line err hf hfail, allWrittenTo]
  | cons p pre ih =>
    have hp := fire_written env p entry line hf (hpre p (by simp))
    have ih2 := ih (fun q hq => hpre q (by simp [hq]))
    simp only [List.cons_append, fireAll, hp, List.append_eq, ih2, allWrittenTo,
      List.append_assoc]

theorem mainHooks_eq (level : Level) (hl : level ∈ logLevelsAll) :
    mainHooks level = [consoleHook, fileHook] ++
      (if level = Level.ErrorLevel ∨ level = Level.PanicLevel ∨ level = Level.FatalLevel
       then [alertHook] else []) := by
  cases level <;> simp [logLevelsAll] at hl <;> decide

theorem mainHooks_fire (env : Env) (level : Level) (entry : Entry) (line : GoString)
    (hl : level ∈ logLevelsAll) (hf : env.Format entry = .ok line) :
    mainHooks.Fire env level entry =
      match env.sinkErr (Output.stdout line) with
      | some err => ([Output.stdout line], some err)
      | none =>
        match env.sinkErr (Output.logfile line) with
        | some err => ([Output.stdout line, Output.logfile line], some err)
        | none =>
          if level = Level.ErrorLevel ∨ level = Level.PanicLevel ∨ level = Level.FatalLevel
          then
            match env.sinkErr (Output.smsCreate mainContainer.Originator
                mainContainer.Recipients (MBContainer.msgBody line)) with
            | some err =>
              ([Output.stdout line, Output.logfile line,
                Output.smsCreate mainContainer.Originator mainContainer.Recipients
                  (MBContainer.msgBody line)], some err)
            | none =>
              ([Output.stdout line, Output.logfile line,
                Output.smsCreate mainContainer.Originator mainContainer.Recipients
                  (MBContainer.msgBody line), Output.messageSent], none)
          else ([Output.stdout line, Output.logfile line], none) := by
  unfold LevelHooks.Fire
  rw [mainHooks_eq level hl]
  by_cases hsev :
      level = Level.ErrorLevel ∨ level = Level.PanicLevel ∨ level = Level.FatalLevel
  · simp only [hsev, if_true, List.cons_append, List.nil_append, fireAll, WriterHook.Fire, hf,
      Writer.Write, MBContainer.Write, consoleHook, fileHook, alertHook]
    cases env.sinkErr (Output.stdout line) with
    | some e1 => rfl
    | none =>
      cases env.sinkErr (Output.logfile line) with
      | some e2 => rfl
      | none =>
        cases env.sinkErr (Output.smsCreate mainContainer.Originator
            mainContainer.Recipients (MBContainer.msgBody line)) <;> rfl
  · simp only [hsev, if_false, List.append_nil, fireAll, WriterHook.Fire, hf,
      Writer.Write, consoleHook, fileHook]
    cases env.sinkErr (Output.stdout line) with
    | some e1 => rfl
    | none =>
      cases env.sinkErr (Output.logfile line) <;> rfl

theorem error_alerts (env : Env) (msg line : GoString)
    (hf : env.Format ⟨Level.ErrorLevel, msg⟩ = .ok line)
    (hs1 : env.sinkErr (Output.stdout line) = none)
    (hs2 : env.sinkErr (Output.logfile line) = none) :
    sentBodies (mainLogger.log env Level.ErrorLevel msg ⟨[], []⟩).out =
      [MBContainer.msgBody line] := by
  have he : Level.ErrorLevel.toNat ≤ mainLogger.Level.toNat := by decide
  unfold Logger.log
  rw [if_pos he]
  simp only [mainLogger, mainHooks_fire env Level.ErrorLevel _ line (by decide) hf, hs1, hs2, hf,
    true_or, if_true]
  cases env.sinkErr (Output.smsCreate mainContainer.Originator
      mainContainer.Recipients (MBContainer.msgBody line)) <;> simp [sentBodies]

theorem warn_sends_nothing (env : Env) (msg : GoString) :
    sentBodies (mainLogger.log env Level.WarnLevel msg ⟨[], []⟩).out = [] := by
  have hm : mainHooks Level.WarnLevel = [consoleHook, fileHook] := by decide
  have he : Level.WarnLevel.toNat ≤ mainLogger.Level.toNat := by decide
  unfold Logger.log
  rw [if_pos he]
  simp only [LevelHooks.Fire, mainLogger, hm, fireAll, WriterHook.Fire, consoleHook, fileHook,
    Writer.Write]
  cases env.Format ⟨Level.WarnLevel, msg⟩ with
  | error err => simp [sentBodies]
  | ok line =>
    simp only
    cases env.sinkErr (Output.stdout line) <;> cases env.sinkErr (Output.logfile line) <;>
      simp [sentBodies]

theorem respond_response_eq (env : Env) (fails : Output → Option GoString)
    (logger : Logger) (r : Request) (code : Int) (w : ResponseWriter) (world world2 : World) :
    (simulateRespond { env with sinkErr := fails } logger r code (w, world2)).returned?.map
        Prod.fst =
      (simulateRespond env logger r code (w, world)).returned?.map Prod.fst := by
  unfold simulateRespond ResponseWriter.WriteHeader
  cases w.header with
  | some hdr => simp only; split <;> rfl
  | none =>
    simp only
    split
    · rfl
    · split <;> rfl

theorem segment_response_eq (env : Env) (fails : Output → Option GoString)
    (logger : Logger) (r : Request) (seg : GoString) (st : ResponseWriter × World) :
    (simulateSegment { env with sinkErr := fails } logger r seg st).returned?.map Prod.fst =
      (simulateSegment env logger r seg st).returned?.map Prod.fst := by
  unfold simulateSegment
  split
  · exact respond_response_eq env fails logger r _ st.1 _ _
  · split
    · rfl
    · exact respond_response_eq env fails logger r _ st.1 _ _

theorem short_segment_response (env : Env) (logger : Logger) (m seg : GoString) (n : Int)
    (hseg : 47 ∉ seg) (hn : Atoi seg = (n, none)) (hlen : seg.length ≠ 3) :
    (simulateHTTPStatus env logger ⟨m, ascii "/simulate/" ++ seg⟩ start).returned?.map
        (fun st => (st.1.status, st.1.body)) =
      some (200, ascii "Unknown status code used in path: " ++ seg ++ [10] ++ helpText ++ [10]) := by
  rw [simulate_of_segment env logger m seg start hseg]
  simp [simulateSegment, hn, hlen, start, Fprintln, ResponseWriter.Write,
    ResponseWriter.status, Run.returned?, bodyAllowedForStatus]

theorem writeHeader_fresh (env : Env) (body : GoString) (code : Int)
    (hr : ¬ (code < 100 ∨ code > 999)) :
    ResponseWriter.WriteHeader env ⟨none, body⟩ code =
      .ok ⟨if env.informational = true ∧ code ≥ 100 ∧ code ≤ 199 ∧ code ≠ 101 then none
           else some code, body⟩ := by
  simp only [ResponseWriter.WriteHeader, hr, if_false]
  split <;> rfl

theorem respond_status (env : Env) (logger : Logger) (r : Request) (code : Int)
    (body : GoString) (world : World) (hr : ¬ (code < 100 ∨ code > 999)) :
    (simulateRespond env logger r code (⟨none, body⟩, world)).returned?.map
        (fun st => st.1.status) =
      some (if env.informational = true ∧ code ≥ 100 ∧ code ≤ 199 ∧ code ≠ 101 then 200
            else code) := by
  simp only [simulateRespond, writeHeader_fresh env body code hr]
  split <;> split <;>
    simp [Run.returned?, Fprintln, ResponseWriter.Write, ResponseWriter.status, *]

theorem respond_levels (env : Env) (r : Request) (code : Int)
    (body : GoString) (world : World) (hr : ¬ (code < 100 ∨ code > 999)) :
    (simulateRespond env mainLogger r code (⟨none, body⟩, world)).world.entries =
      world.entries ++
        [if code ≥ 500 ∧ code < 600 then
          ⟨Level.ErrorLevel, ascii "Server error. [" ++ r.Method ++ ascii " " ++ r.Path ++
            ascii "] " ++ formatInt code ++ ascii " " ++ env.StatusText code⟩
         else
          ⟨Level.InfoLevel, ascii "Everything\x27s ok on our end.[" ++ r.Method ++ ascii " " ++
            r.Path ++ ascii "] " ++ formatInt code ++ ascii " " ++ env.StatusText code⟩] := by
  simp only [simulateRespond, writeHeader_fresh env body code hr]
  split
  · exact log_entries env mainLogger Level.ErrorLevel _ _ (by decide)
  · exact log_entries env mainLogger Level.InfoLevel _ _ (by decide)

/-! ## The claims -/

/-- C6, as stated, fails: a payload of exactly 160 bytes is longer than 159
bytes, and `MBContainer.Write` hands all 160 bytes to `sms.Create`. -/
theorem write_keeps_160_bytes :
    (List.replicate 160 65).length > 159 ∧
    sentBodies (mainContainer.Write plainEnv (List.replicate 160 65)).1 =
      [List.replicate 160 65] ∧
    (List.replicate 160 65 : GoString).length ≠ 159 := by
  refine ⟨by simp, ?_, by simp⟩
  rw [sentBodies_write]
  simp [MBContainer.msgBody]

/-- C6, amended. For every payload longer than 160 bytes, `MBContainer.Write`
hands to `sms.Create` one message body, the first 159 bytes of the payload, of
length exactly 159. -/
theorem write_truncates_to_159 (env : Env) (mb : MBContainer) (p : GoString)
    (h : p.length > 160) :
    sentBodies (mb.Write env p).1 = [p.take 159] ∧ (p.take 159).length = 159 := by
  constructor
  · rw [sentBodies_write, MBContainer.msgBody, if_pos h]
  · rw [List.length_take]
    omega

theorem write_truncates_to_159_witness :
    (List.replicate 161 65).length > 160 ∧
    sentBodies (mainContainer.Write plainEnv (List.replicate 161 65)).1 =
      [(List.replicate 161 65).take 159] ∧
    ((List.replicate 161 65 : GoString).take 159).length = 159 :=
  ⟨by simp, write_truncates_to_159 plainEnv mainContainer (List.replicate 161 65) (by simp)⟩

/-- C7. For every payload `p`, `MBContainer.Write` hands to `sms.Create` one
message body; it is an initial segment of `p` of length at most 160: `p` itself
when `p` has at most 160 bytes, the first 159 bytes of `p` when it has more. -/
theorem write_body_is_initial_segment (env : Env) (mb : MBContainer) (p : GoString) :
    ∃ body, sentBodies (mb.Write env p).1 = [body] ∧ body <+: p ∧ body.length ≤ 160 ∧
      ((p.length ≤ 160 ∧ body = p) ∨ (160 < p.length ∧ body = p.take 159)) := by
  refine ⟨MBContainer.msgBody p, ?_, ?_, ?_, ?_⟩
  · exact sentBodies_write env mb p
  · unfold MBContainer.msgBody
    split
    · exact List.take_prefix 159 p
    · exact List.prefix_refl p
  · unfold MBContainer.msgBody
    split
    · rw [List.length_take]; omega
    · omega
  · unfold MBContainer.msgBody
    by_cases h : p.length > 160
    · right; exact ⟨h, by rw [if_pos h]⟩
    · left; exact ⟨by omega, by rw [if_neg h]⟩

/-- C2, as stated, fails at `/simulate/000`: the string is 3 decimal digits, the
handler passes 0 to `WriteHeader`, the response writer rejects it and the run
ends in a panic; no response status is set. -/
theorem simulate_000_no_status :
    (ascii "000").length = 3 ∧ isDigits (ascii "000") ∧ decimalValue (ascii "000") = 0 ∧
    simulateHTTPStatus plainEnv mainLogger ⟨ascii "GET", ascii "/simulate/000"⟩ start =
      Run.panicked (PanicCause.invalidWriteHeaderCode 0) ⟨[], []⟩ := by
  decide

/-- C2, amended. For every 3-character string `c` of decimal digits,
`simulateHTTPStatus` on `/simulate/c` sets the response status to exactly the
integer value of `c` when that value is at least 200 or is 101; below 100 the
run panics in `WriteHeader` and no response is produced; from 100 to 199
(101 apart) the status is the value of `c` on a server that writes 1xx codes as
the final status and 200 on a server that sends them as informational
responses. -/
theorem simulate_status_of_code (env : Env) (logger : Logger) (m c : GoString)
    (hlen : c.length = 3) (hd : isDigits c) :
    (simulateHTTPStatus env logger ⟨m, ascii "/simulate/" ++ c⟩ start).returned?.map
        (fun st => st.1.status) =
      if decimalValue c < 100 then none
      else if env.informational = true ∧ decimalValue c ≤ 199 ∧ decimalValue c ≠ 101
      then some 200
      else some (decimalValue c : Int) := by
  rw [simulate_of_digits env logger m c start hlen hd]
  have hlt := decimalValue_lt c hlen hd
  by_cases h1 : decimalValue c < 100
  · rw [if_pos h1, show start = ((⟨none, []⟩ : ResponseWriter), (⟨[], []⟩ : World)) from rfl,
      respond_rejected env logger _ _ _ _ (Or.inl (by omega))]
    rfl
  · have hr : ¬ ((decimalValue c : Int) < 100 ∨ (decimalValue c : Int) > 999) := by omega
    rw [if_neg h1, show start = ((⟨none, []⟩ : ResponseWriter), (⟨[], []⟩ : World)) from rfl,
      respond_status env logger _ _ _ _ hr]
    by_cases h2 : env.informational = true ∧ decimalValue c ≤ 199 ∧ decimalValue c ≠ 101
    · have h3 : env.informational = true ∧ (decimalValue c : Int) ≥ 100 ∧
          (decimalValue c : Int) ≤ 199 ∧ (decimalValue c : Int) ≠ 101 :=
        ⟨h2.1, by omega, by omega, by omega⟩
      rw [if_pos h2, if_pos h3]
    · have h3 : ¬ (env.informational = true ∧ (decimalValue c : Int) ≥ 100 ∧
          (decimalValue c : Int) ≤ 199 ∧ (decimalValue c : Int) ≠ 101) := by
        intro h
        exact h2 ⟨h.1, by omega, by omega⟩
      rw [if_neg h2, if_neg h3]

theorem simulate_status_of_code_witness :
    (ascii "404").length = 3 ∧ isDigits (ascii "404") ∧ decimalValue (ascii "404") = 404 ∧
    (simulateHTTPStatus plainEnv mainLogger ⟨ascii "GET", ascii "/simulate/" ++ ascii "404"⟩
        start).returned?.map (fun st => st.1.status) =
      (if decimalValue (ascii "404") < 100 then none
       else if plainEnv.informational = true ∧ decimalValue (ascii "404") ≤ 199 ∧
          decimalValue (ascii "404") ≠ 101
       then some 200
       else some (decimalValue (ascii "404") : Int)) :=
  ⟨by decide, by decide, by decide,
    simulate_status_of_code plainEnv mainLogger (ascii "GET") (ascii "404") (by decide)
      (by decide)⟩

/-- C5, as stated, fails at `/simulate/099`: the string is 3 decimal digits, the
run panics in `WriteHeader` before the log call, and no log event is emitted. -/
theorem simulate_099_no_event :
    (ascii "099").length = 3 ∧ isDigits (ascii "099") ∧
    (simulateHTTPStatus plainEnv mainLogger ⟨ascii "GET", ascii "/simulate/099"⟩
        start).world.entries = [] ∧
    (simulateHTTPStatus plainEnv mainLogger ⟨ascii "GET", ascii "/simulate/099"⟩
        start).returned? = none := by
  decide

/-- C5, amended. For every 3-character string `c` of decimal digits with value
at least 100, `simulateHTTPStatus` on `/simulate/c` emits exactly one log
event: at error level when 500 <= c <= 599, at info level otherwise; for a value
below 100 it emits no log event. -/
theorem simulate_events_of_code (env : Env) (m c : GoString)
    (hlen : c.length = 3) (hd : isDigits c) :
    (simulateHTTPStatus env mainLogger ⟨m, ascii "/simulate/" ++ c⟩
        start).world.entries.map Entry.Level =
      if decimalValue c < 100 then []
      else [if 500 ≤ decimalValue c ∧ decimalValue c ≤ 599 then Level.ErrorLevel
            else Level.InfoLevel] := by
  rw [simulate_of_digits env mainLogger m c start hlen hd]
  have hlt := decimalValue_lt c hlen hd
  by_cases h1 : decimalValue c < 100
  · rw [if_pos h1, show start = ((⟨none, []⟩ : ResponseWriter), (⟨[], []⟩ : World)) from rfl,
      respond_rejected env mainLogger _ _ _ _ (Or.inl (by omega))]
    rfl
  · have hr : ¬ ((decimalValue c : Int) < 100 ∨ (decimalValue c : Int) > 999) := by omega
    rw [if_neg h1, show start = ((⟨none, []⟩ : ResponseWriter), (⟨[], []⟩ : World)) from rfl,
      respond_levels env _ _ _ _ hr]
    by_cases h : 500 ≤ decimalValue c ∧ decimalValue c ≤ 599
    · have h2 : ((decimalValue c : Int) ≥ 500 ∧ (decimalValue c : Int) < 600) := by omega
      rw [if_pos h, if_pos h2]
      rfl
    · have h2 : ¬ ((decimalValue c : Int) ≥ 500 ∧ (decimalValue c : Int) < 600) := by omega
      rw [if_neg h, if_neg h2]
      rfl

theorem simulate_events_of_code_witness :
    (ascii "503").length = 3 ∧ isDigits (ascii "503") ∧ decimalValue (ascii "503") = 503 ∧
    (simulateHTTPStatus plainEnv mainLogger ⟨ascii "GET", ascii "/simulate/" ++ ascii "503"⟩
        start).world.entries.map Entry.Level =
      (if decimalValue (ascii "503") < 100 then []
       else [if 500 ≤ decimalValue (ascii "503") ∧ decimalValue (ascii "503") ≤ 599
             then Level.ErrorLevel else Level.InfoLevel]) :=
  ⟨by decide, by decide, by decide,
    simulate_events_of_code plainEnv (ascii "GET") (ascii "503") (by decide) (by decide)⟩

/-- C8. For every method `m` and 3-digit code `c` with 500 <= c < 600, the one
error-level event of `simulateHTTPStatus` on `p = /simulate/c` and the response
body carry the same text `Server error. [m p] c <reason phrase of c>`, the body
followed by a newline, and the status is `c`; for `GET /simulate/503` the text
is `Server error. [GET /simulate/503] 503 Service Unavailable`, status 503. -/
theorem server_error_text (env : Env) (m c : GoString)
    (hlen : c.length = 3) (hd : isDigits c)
    (h500 : 500 ≤ decimalValue c) (h600 : decimalValue c < 600) :
    (simulateHTTPStatus env mainLogger ⟨m, ascii "/simulate/" ++ c⟩ start).returned?.map
        (fun st => (st.2.entries, st.1.body, st.1.status)) =
      some ([⟨Level.ErrorLevel,
              ascii "Server error. [" ++ m ++ ascii " " ++ (ascii "/simulate/" ++ c) ++
                ascii "] " ++ c ++ ascii " " ++ env.StatusText (decimalValue c : Int)⟩],
            ascii "Server error. [" ++ m ++ ascii " " ++ (ascii "/simulate/" ++ c) ++
                ascii "] " ++ c ++ ascii " " ++ env.StatusText (decimalValue c : Int) ++ [10],
            (decimalValue c : Int)) ∧
    (simulateHTTPStatus plainEnv mainLogger ⟨ascii "GET", ascii "/simulate/503"⟩
        start).returned?.map (fun st => (st.2.entries, st.1.body, st.1.status)) =
      some ([⟨Level.ErrorLevel,
              ascii "Server error. [GET /simulate/503] 503 Service Unavailable"⟩],
            ascii "Server error. [GET /simulate/503] 503 Service Unavailable\n", 503) := by
  refine ⟨?_, by decide⟩
  rw [simulate_of_digits env mainLogger m c start hlen hd]
  have h2 : ((decimalValue c : Int) ≥ 500 ∧ (decimalValue c : Int) < 600) := by omega
  have hr : ¬ ((decimalValue c : Int) < 100 ∨ (decimalValue c : Int) > 999) := by omega
  have h3 : ¬ (env.informational = true ∧ (decimalValue c : Int) ≥ 100 ∧
      (decimalValue c : Int) ≤ 199 ∧ (decimalValue c : Int) ≠ 101) := by
    intro h
    omega
  have hb : bodyAllowedForStatus (decimalValue c : Int) = true := by
    unfold bodyAllowedForStatus
    rw [if_neg (by omega), if_neg (by omega), if_neg (by omega)]
  simp only [simulateRespond, ResponseWriter.WriteHeader, start, hr, h3, h2, if_false, if_true,
    and_self, formatInt_digits3 c hlen hd (by omega), Run.returned?, Option.map_some',
    log_entries env mainLogger Level.ErrorLevel _ _
      (show Level.ErrorLevel.toNat ≤ mainLogger.Level.toNat by decide),
    Fprintln, ResponseWriter.Write, ResponseWriter.status, Option.getD_some, hb,
    List.nil_append, List.append_assoc]

theorem server_error_text_witness :
    (ascii "500").length = 3 ∧ isDigits (ascii "500") ∧ decimalValue (ascii "500") = 500 ∧
    (simulateHTTPStatus plainEnv mainLogger ⟨ascii "POST", ascii "/simulate/" ++ ascii "500"⟩
        start).returned?.map (fun st => (st.2.entries, st.1.body, st.1.status)) =
      some ([⟨Level.ErrorLevel,
              ascii "Server error. [" ++ ascii "POST" ++ ascii " " ++
                (ascii "/simulate/" ++ ascii "500") ++ ascii "] " ++ ascii "500" ++ ascii " " ++
                plainEnv.StatusText (decimalValue (ascii "500") : Int)⟩],
            ascii "Server error. [" ++ ascii "POST" ++ ascii " " ++
                (ascii "/simulate/" ++ ascii "500") ++ ascii "] " ++ ascii "500" ++ ascii " " ++
                plainEnv.StatusText (decimalValue (ascii "500") : Int) ++ [10],
            (decimalValue (ascii "500") : Int)) :=
  ⟨by decide, by decide, by decide,
    (server_error_text plainEnv (ascii "POST") (ascii "500") (by decide) (by decide)
      (by decide) (by decide)).1⟩

/-- C10. For every URL path that begins with `/simulate/`, splitting on `/`
yields at least three pieces, so `path[2]` is in range; `path[2]` is the text
between the second slash and the next slash or the end of the path, what
follows a third slash does not change it, and the handler runs on that segment. -/
theorem path_segment_in_range (rest : GoString) :
    3 ≤ (Split (ascii "/simulate/" ++ rest) 47).length ∧
    (Split (ascii "/simulate/" ++ rest) 47).get? 2 =
      some (rest.takeWhile (fun c => decide (c ≠ 47))) ∧
    (∀ extra : GoString,
      (Split (ascii "/simulate/" ++
          (rest.takeWhile (fun c => decide (c ≠ 47)) ++ 47 :: extra)) 47).get? 2 =
        some (rest.takeWhile (fun c => decide (c ≠ 47)))) ∧
    (∀ (env : Env) (logger : Logger) (m : GoString) (st : ResponseWriter × World),
      simulateHTTPStatus env logger ⟨m, ascii "/simulate/" ++ rest⟩ st =
        simulateSegment env logger ⟨m, ascii "/simulate/" ++ rest⟩
          (rest.takeWhile (fun c => decide (c ≠ 47))) st) := by
  refine ⟨?_, segment_of_path rest, ?_, ?_⟩
  · rw [Split_simulate]
    cases hs : Split rest 47 with
    | nil => exact absurd (hs ▸ Split_head rest 47) (by simp)
    | cons piece more => simp
  · intro extra
    rw [segment_of_path, takeWhile_segment]
  · intro env logger m st
    simp only [simulateHTTPStatus, segment_of_path]

/-- C1, as stated, fails: when the write on standard output fails, an
info-level event, which the file hook accepts, never reaches the log file; the
only call made is the failed write on standard output. -/
theorem file_skipped_when_stdout_fails :
    Level.InfoLevel ∈ logLevelsAll ∧ fileHook ∈ mainHooks Level.InfoLevel ∧
    mainHooks.Fire stdoutDown Level.InfoLevel ⟨Level.InfoLevel, ascii "hello"⟩ =
      ([Output.stdout (ascii "hello\n")], some (ascii "file already closed")) := by
  decide

/-- C1, amended. With the three hooks registered in `main`, for every log event
at one of the levels info, warning, error, panic, fatal whose rendering
succeeds: the hooks selected for the event are the console hook, the file hook
and, exactly at error, panic or fatal level, the alert hook; the line is written
on standard output; it is written on the log file provided the write on
standard output did not fail; and it is handed to `sms.Create` exactly when the
level is error, panic or fatal and neither of the two earlier writes failed. -/
theorem hooks_by_level (env : Env) (level : Level) (msg line : GoString)
    (hl : level ∈ logLevelsAll) (hf : env.Format ⟨level, msg⟩ = .ok line) :
    (consoleHook ∈ mainHooks level ∧ fileHook ∈ mainHooks level ∧
      (alertHook ∈ mainHooks level ↔
        (level = Level.ErrorLevel ∨ level = Level.PanicLevel ∨ level = Level.FatalLevel))) ∧
    mainHooks.Fire env level ⟨level, msg⟩ =
      match env.sinkErr (Output.stdout line) with
      | some err => ([Output.stdout line], some err)
      | none =>
        match env.sinkErr (Output.logfile line) with
        | some err => ([Output.stdout line, Output.logfile line], some err)
        | none =>
          if level = Level.ErrorLevel ∨ level = Level.PanicLevel ∨ level = Level.FatalLevel
          then
            match env.sinkErr (Output.smsCreate mainContainer.Originator
                mainContainer.Recipients (MBContainer.msgBody line)) with
            | some err =>
              ([Output.stdout line, Output.logfile line,
                Output.smsCreate mainContainer.Originator mainContainer.Recipients
                  (MBContainer.msgBody line)], some err)
            | none =>
              ([Output.stdout line, Output.logfile line,
                Output.smsCreate mainContainer.Originator mainContainer.Recipients
                  (MBContainer.msgBody line), Output.messageSent], none)
          else ([Output.stdout line, Output.logfile line], none) := by
  constructor
  · clear hf
    cases level <;> simp [logLevelsAll] at hl <;> decide
  · exact mainHooks_fire env level ⟨level, msg⟩ line hl hf

theorem hooks_by_level_witness :
    Level.ErrorLevel ∈ logLevelsAll ∧
    plainEnv.Format ⟨Level.ErrorLevel, ascii "careful"⟩ = .ok (ascii "careful\n") ∧
    mainHooks.Fire plainEnv Level.ErrorLevel ⟨Level.ErrorLevel, ascii "careful"⟩ =
      ([Output.stdout (ascii "careful\n"), Output.logfile (ascii "careful\n"),
        Output.smsCreate mainContainer.Originator mainContainer.Recipients
          (MBContainer.msgBody (ascii "careful\n")), Output.messageSent], none) :=
  ⟨by decide, rfl,
    (hooks_by_level plainEnv Level.ErrorLevel (ascii "careful") (ascii "careful\n")
      (by decide) rfl).2⟩

/-- C9, as stated, fails: when the write on the log file fails for an
error-level event, the alert hook, registered later and accepting the level
(and able to send), is not written to: the calls made are the write on standard
output and the failed write on the log file only. -/
theorem alert_skipped_when_logfile_fails :
    alertHook ∈ mainHooks Level.ErrorLevel ∧
    (alertHook.Fire logfileDown ⟨Level.ErrorLevel, ascii "boom"⟩).2 = none ∧
    mainHooks.Fire logfileDown Level.ErrorLevel ⟨Level.ErrorLevel, ascii "boom"⟩ =
      ([Output.stdout (ascii "boom\n"), Output.logfile (ascii "boom\n")],
        some (ascii "invalid argument")) ∧
    sentBodies (mainLogger.log logfileDown Level.ErrorLevel (ascii "boom") ⟨[], []⟩).out = [] := by
  decide

/-- C9, amended. When an event that renders is dispatched to the hooks of its
level in registration order and the write of one destination fails, the log
call still returns normally with the event recorded, and the calls made are
exactly: for each destination registered before the failing one, its write of
the line; the failed sink call of the failing destination; and one line on
standard error reporting the error. No destination registered after the
failing one is written to. The response the handler writes does not depend on
which sink calls fail. -/
theorem log_stops_at_failing_hook (env : Env) (logger : Logger) (level : Level)
    (msg line err : GoString) (w : World) (pre post : List WriterHook) (h : WriterHook)
    (hen : level.toNat ≤ logger.Level.toNat)
    (hh : logger.Hooks level = pre ++ h :: post)
    (hf : env.Format ⟨level, msg⟩ = .ok line)
    (hpre : ∀ p ∈ pre, env.sinkErr (sinkCall p.Writer line) = none)
    (hfail : env.sinkErr (sinkCall h.Writer line) = some err) :
    logger.log env level msg w =
      { entries := w.entries ++ [⟨level, msg⟩],
        out := w.out ++ (allWrittenTo line pre ++ [sinkCall h.Writer line]) ++
          [Output.stderr (ascii "Failed to fire hook: " ++ err ++ ascii "\n")] } ∧
    (∀ (fails : Output → Option GoString) (r : Request) (st : ResponseWriter × World),
      (simulateHTTPStatus { env with sinkErr := fails } logger r st).returned?.map Prod.fst =
        (simulateHTTPStatus env logger r st).returned?.map Prod.fst) := by
  constructor
  · unfold Logger.log LevelHooks.Fire
    rw [if_pos hen, hh, fireAll_stops env ⟨level, msg⟩ line err pre post h hf hpre hfail]
    simp only [hf, List.append_nil, List.append_assoc]
  · intro fails r st
    unfold simulateHTTPStatus
    split
    · rfl
    · exact segment_response_eq env fails logger r _ st

theorem log_stops_at_failing_hook_witness :
    Level.ErrorLevel.toNat ≤ mainLogger.Level.toNat ∧
    mainLogger.Hooks Level.ErrorLevel = [consoleHook] ++ fileHook :: [alertHook] ∧
    logfileDown.Format ⟨Level.ErrorLevel, ascii "boom"⟩ = .ok (ascii "boom\n") ∧
    (∀ p ∈ [consoleHook], logfileDown.sinkErr (sinkCall p.Writer (ascii "boom\n")) = none) ∧
    logfileDown.sinkErr (sinkCall fileHook.Writer (ascii "boom\n")) =
      some (ascii "invalid argument") ∧
    mainLogger.log logfileDown Level.ErrorLevel (ascii "boom") ⟨[], []⟩ =
      { entries := [] ++ [⟨Level.ErrorLevel, ascii "boom"⟩],
        out := [] ++ (allWrittenTo (ascii "boom\n") [consoleHook] ++
            [sinkCall fileHook.Writer (ascii "boom\n")]) ++
          [Output.stderr (ascii "Failed to fire hook: " ++ ascii "invalid argument" ++
            ascii "\n")] } ∧
    allWrittenTo (ascii "boom\n") [consoleHook] ++ [sinkCall fileHook.Writer (ascii "boom\n")] =
      [Output.stdout (ascii "boom\n"), Output.logfile (ascii "boom\n")] :=
  ⟨by decide, by decide, rfl, by decide, by decide,
    (log_stops_at_failing_hook logfileDown mainLogger Level.ErrorLevel (ascii "boom")
      (ascii "boom\n") (ascii "invalid argument") ⟨[], []⟩ [consoleHook] [alertHook] fileHook
      (by decide) (by decide) rfl (by decide) (by decide)).1,
    by decide⟩

/-- C3 at `GET /simulate/abc`: the segment is not numeric, yet after logging
the parse error the handler goes on to call `WriteHeader` with code 0; the
response writer rejects the code and the run ends in a panic: the status is not
left at 200 and no body naming the segment is written. -/
theorem simulate_abc_response (env : Env) (logger : Logger) :
    simulateHTTPStatus env logger ⟨ascii "GET", ascii "/simulate/abc"⟩ start =
      Run.panicked (PanicCause.invalidWriteHeaderCode 0)
        (logger.log env Level.ErrorLevel
          (NumError.Error env ⟨ascii "Atoi", ascii "abc", NumErr.ErrSyntax⟩) ⟨[], []⟩) ∧
    (simulateHTTPStatus env logger ⟨ascii "GET", ascii "/simulate/abc"⟩ start).returned? =
      none := by
  have hp : ascii "/simulate/abc" = ascii "/simulate/" ++ ascii "abc" := by decide
  have ha : Atoi (ascii "abc") = (0, some ⟨ascii "Atoi", ascii "abc", NumErr.ErrSyntax⟩) := by
    decide
  have hrun : simulateHTTPStatus env logger ⟨ascii "GET", ascii "/simulate/abc"⟩ start =
      Run.panicked (PanicCause.invalidWriteHeaderCode 0)
        (logger.log env Level.ErrorLevel
          (NumError.Error env ⟨ascii "Atoi", ascii "abc", NumErr.ErrSyntax⟩) ⟨[], []⟩) := by
    rw [hp, simulate_of_segment env logger _ _ start (by decide)]
    simp only [simulateSegment, ha, start]
    exact respond_rejected env logger _ 0 _ _ (Or.inl (by decide))
  exact ⟨hrun, by rw [hrun]; rfl⟩

/-- C4, as stated, fails at `GET /simulate/abc`: the one event the handler
emits is at error level and carries the `strconv.Atoi` error, not a warning,
and it reaches the alert hook: one message body is handed to `sms.Create`. -/
theorem simulate_abc_events :
    (simulateHTTPStatus plainEnv mainLogger ⟨ascii "GET", ascii "/simulate/abc"⟩
        start).world.entries =
      [⟨Level.ErrorLevel, ascii "strconv.Atoi: parsing \x22abc\x22: invalid syntax"⟩] ∧
    sentBodies (simulateHTTPStatus plainEnv mainLogger ⟨ascii "GET", ascii "/simulate/abc"⟩
        start).world.out =
      [ascii "strconv.Atoi: parsing \x22abc\x22: invalid syntax\n"] := by
  decide

/-- C4, amended. On the path `/simulate/<seg>`: when the segment parses as an
integer and is not exactly 3 bytes long, the handler emits exactly one log
event, at warning level, with the message `Unknown status code used in path:
<seg>`, and nothing is handed to `sms.Create`; when the segment fails to parse,
the handler emits exactly one log event, at error level, carrying the
`strconv.Atoi` error, and the rendered line is handed to `sms.Create` when the
rendering and the writes on standard output and the log file succeed; when the
segment is 3 bytes long and parses without being 3 digits (a sign and two
digits), no log event is emitted. -/
theorem segment_events (env : Env) (m seg : GoString) (hseg : 47 ∉ seg) :
    (∀ n : Int, Atoi seg = (n, none) → seg.length ≠ 3 →
      (simulateHTTPStatus env mainLogger ⟨m, ascii "/simulate/" ++ seg⟩ start).world.entries =
          [⟨Level.WarnLevel, ascii "Unknown status code used in path: " ++ seg⟩] ∧
      sentBodies (simulateHTTPStatus env mainLogger ⟨m, ascii "/simulate/" ++ seg⟩
          start).world.out = []) ∧
    (∀ (n : Int) (e : NumError), Atoi seg = (n, some e) →
      (simulateHTTPStatus env mainLogger ⟨m, ascii "/simulate/" ++ seg⟩ start).world.entries =
          [⟨Level.ErrorLevel, e.Error env⟩] ∧
      (∀ line : GoString, env.Format ⟨Level.ErrorLevel, e.Error env⟩ = .ok line →
        env.sinkErr (Output.stdout line) = none → env.sinkErr (Output.logfile line) = none →
        sentBodies (simulateHTTPStatus env mainLogger ⟨m, ascii "/simulate/" ++ seg⟩
            start).world.out = [MBContainer.msgBody line])) ∧
    (∀ n : Int, Atoi seg = (n, none) → seg.length = 3 → ¬ isDigits seg →
      (simulateHTTPStatus env mainLogger ⟨m, ascii "/simulate/" ++ seg⟩ start).world.entries =
        []) := by
  have hpath := simulate_of_segment env mainLogger m seg start hseg
  refine ⟨?_, ?_, ?_⟩
  · intro n hn hlen
    rw [hpath]
    simp only [simulateSegment, hn, hlen, ne_eq, not_false_eq_true, if_true, start, Run.world,
      warn_sends_nothing,
      log_entries env mainLogger Level.WarnLevel _ _
        (show Level.WarnLevel.toNat ≤ mainLogger.Level.toNat by decide), List.nil_append,
      and_self]
  · intro n e he
    have hrej := Atoi_error_value seg n e he
    rw [hpath]
    simp only [simulateSegment, he, start, respond_rejected env mainLogger _ n _ _ hrej,
      Run.world,
      log_entries env mainLogger Level.ErrorLevel _ _
        (show Level.ErrorLevel.toNat ≤ mainLogger.Level.toNat by decide), List.nil_append,
      true_and]
    intro line hf hs1 hs2
    exact error_alerts env _ line hf hs1 hs2
  · intro n hn hlen hnd
    have hlt := Atoi_signed3 seg n hlen hn hnd
    rw [hpath]
    simp only [simulateSegment, hn, hlen, ne_eq, not_true_eq_false, if_false, start,
      respond_rejected env mainLogger _ n _ _ (Or.inl hlt), Run.world]

theorem segment_events_witness :
    47 ∉ ascii "42" ∧ Atoi (ascii "42") = (42, none) ∧ (ascii "42").length ≠ 3 ∧
    ((simulateHTTPStatus plainEnv mainLogger ⟨ascii "GET", ascii "/simulate/" ++ ascii "42"⟩
        start).world.entries =
      [⟨Level.WarnLevel, ascii "Unknown status code used in path: " ++ ascii "42"⟩] ∧
     sentBodies (simulateHTTPStatus plainEnv mainLogger
        ⟨ascii "GET", ascii "/simulate/" ++ ascii "42"⟩ start).world.out = []) ∧
    47 ∉ ascii "4x4" ∧
    Atoi (ascii "4x4") = (0, some ⟨ascii "Atoi", ascii "4x4", NumErr.ErrSyntax⟩) ∧
    (simulateHTTPStatus plainEnv mainLogger ⟨ascii "GET", ascii "/simulate/" ++ ascii "4x4"⟩
        start).world.entries =
      [⟨Level.ErrorLevel,
        NumError.Error plainEnv ⟨ascii "Atoi", ascii "4x4", NumErr.ErrSyntax⟩⟩] ∧
    sentBodies (simulateHTTPStatus plainEnv mainLogger
        ⟨ascii "GET", ascii "/simulate/" ++ ascii "4x4"⟩ start).world.out =
      [MBContainer.msgBody
        (NumError.Error plainEnv ⟨ascii "Atoi", ascii "4x4", NumErr.ErrSyntax⟩ ++ [10])] ∧
    47 ∉ ascii "-12" ∧ Atoi (ascii "-12") = (-12, none) ∧ (ascii "-12").length = 3 ∧
    ¬ isDigits (ascii "-12") ∧
    (simulateHTTPStatus plainEnv mainLogger ⟨ascii "GET", ascii "/simulate/" ++ ascii "-12"⟩
        start).world.entries = [] :=
  ⟨by decide, by decide, by decide,
    (segment_events plainEnv (ascii "GET") (ascii "42") (by decide)).1 42 (by decide)
      (by decide),
    by decide, by decide,
    ((segment_events plainEnv (ascii "GET") (ascii "4x4") (by decide)).2.1 0 _
      (by decide)).1,
    ((segment_events plainEnv (ascii "GET") (ascii "4x4") (by decide)).2.1 0 _
      (by decide)).2 _ rfl rfl rfl,
    by decide, by decide, by decide, by decide,
    (segment_events plainEnv (ascii "GET") (ascii "-12") (by decide)).2.2 (-12) (by decide)
      (by decide) (by decide)⟩

end ServerAlerts
